import Mathlib

/-!
# RampForge — verification of the optimistic-concurrency and broadcast core

Shallow embedding, in Lean 4, of the parts of the RampForge backend that the
specification's claims are about:

* `src/backend/app/ws/manager.py` — `ConnectionManager` (connection registry,
  per-client filters, filtered broadcast fan-out, client control messages);
* `src/backend/app/api/assignments.py` — the assignment write path with
  optimistic locking (`update_assignment`, `create_assignment`);
* `src/backend/app/db/base.py` — `VersionMixin` (version counter);
* `src/backend/app/schemas/assignment.py` — response/conflict payload shapes.

Python dict/JSON data (filters, broadcast payloads) is modelled by the `JValue`
type together with Python truthiness; the database is modelled as lists of
entity records, and each HTTP handler as a pure function from the database and
the request to a result, the post-state, the audit records it emitted and the
broadcast calls it made.
-/

set_option autoImplicit false

namespace RampForge

/-- JSON-like values, as produced by `json.loads` and pydantic's
`model_dump(mode="json")`.  Python's `None` and JSON `null` are both `.null`. -/
inductive JValue where
  | null : JValue
  | bool (b : Bool) : JValue
  | num (n : Int) : JValue
  | str (s : String) : JValue
  | arr (elems : List JValue) : JValue
  | obj (fields : List (String × JValue)) : JValue
deriving Repr

mutual

/-- Structural equality of JSON values (Python `==` on parsed JSON data). -/
def JValue.beq : JValue → JValue → Bool
  | .null, .null => true
  | .bool a, .bool b => a == b
  | .num a, .num b => a == b
  | .str a, .str b => a == b
  | .arr as, .arr bs => JValue.beqList as bs
  | .obj fs, .obj gs => JValue.beqObj fs gs
  | _, _ => false

/-- Elementwise equality of JSON arrays. -/
def JValue.beqList : List JValue → List JValue → Bool
  | [], [] => true
  | a :: as, b :: bs => JValue.beq a b && JValue.beqList as bs
  | _, _ => false

/-- Entrywise equality of JSON objects. -/
def JValue.beqObj : List (String × JValue) → List (String × JValue) → Bool
  | [], [] => true
  | (k, v) :: fs, (k', v') :: gs => k == k' && JValue.beq v v' && JValue.beqObj fs gs
  | _, _ => false

end

mutual

theorem JValue.beq_iff_eq : ∀ (a b : JValue), JValue.beq a b = true ↔ a = b
  | .null, b => by cases b <;> simp [JValue.beq]
  | .bool x, b => by cases b <;> simp [JValue.beq]
  | .num x, b => by cases b <;> simp [JValue.beq]
  | .str x, b => by cases b <;> simp [JValue.beq]
  | .arr xs, b => by
      cases b <;> simp [JValue.beq]
      case arr ys => exact JValue.beqList_iff_eq xs ys
  | .obj fs, b => by
      cases b <;> simp [JValue.beq]
      case obj gs => exact JValue.beqObj_iff_eq fs gs

theorem JValue.beqList_iff_eq : ∀ (as bs : List JValue), JValue.beqList as bs = true ↔ as = bs
  | [], [] => by simp [JValue.beqList]
  | [], _ :: _ => by simp [JValue.beqList]
  | _ :: _, [] => by simp [JValue.beqList]
  | a :: as, b :: bs => by
      simp [JValue.beqList, JValue.beq_iff_eq a b, JValue.beqList_iff_eq as bs]

theorem JValue.beqObj_iff_eq :
    ∀ (fs gs : List (String × JValue)), JValue.beqObj fs gs = true ↔ fs = gs
  | [], [] => by simp [JValue.beqObj]
  | [], _ :: _ => by simp [JValue.beqObj]
  | _ :: _, [] => by simp [JValue.beqObj]
  | (k, v) :: fs, (k', v') :: gs => by
      simp [JValue.beqObj, JValue.beq_iff_eq v v', JValue.beqObj_iff_eq fs gs,
        and_assoc]

end

instance : DecidableEq JValue :=
  fun a b => decidable_of_iff (JValue.beq a b = true) (JValue.beq_iff_eq a b)

/-- A JSON object body: an association list of string keys to values. -/
abbrev JObj := List (String × JValue)

/-- Python truthiness of a JSON value (`if value:`). -/
def JValue.truthy : JValue → Bool
  | .null => false
  | .bool b => b
  | .num n => n != 0
  | .str s => s != ""
  | .arr xs => !xs.isEmpty
  | .obj fs => !fs.isEmpty

/-! ### Python dictionaries as association lists

A Python `dict` is modelled as an association list with (in the states our
operations produce) at most one entry per key.  `alookup` is key lookup,
`aset` is `d[k] = v` (replace in place if the key exists, append otherwise),
`aremove` is `d.pop(k, None)`. -/

/-- `d.get(k)` yielding `none` when the key is absent. -/
def alookup {α : Type} : List (String × α) → String → Option α
  | [], _ => none
  | (k, v) :: rest, key => if k = key then some v else alookup rest key

/-- `d[k] = v`: replace the first entry for `k`, or append a new entry. -/
def aset {α : Type} : List (String × α) → String → α → List (String × α)
  | [], key, v => [(key, v)]
  | (k, w) :: rest, key, v =>
      if k = key then (key, v) :: rest else (k, w) :: aset rest key v

/-- `d.pop(k, None)`: drop every entry for `k`. -/
def aremove {α : Type} (l : List (String × α)) (key : String) : List (String × α) :=
  l.filter (fun p => p.1 ≠ key)

theorem alookup_aset_self {α : Type} (l : List (String × α)) (k : String) (v : α) :
    alookup (aset l k v) k = some v := by
  induction l with
  | nil => simp [aset, alookup]
  | cons hd tl ih =>
      by_cases h : hd.1 = k <;> simp [aset, alookup, h, ih]

theorem alookup_aset_ne {α : Type} (l : List (String × α)) (k k' : String) (v : α)
    (h : k' ≠ k) : alookup (aset l k v) k' = alookup l k' := by
  induction l with
  | nil => simp [aset, alookup, Ne.symm h]
  | cons hd tl ih =>
      by_cases hk : hd.1 = k
      · subst hk
        simp [aset, alookup, Ne.symm h, h]
      · by_cases hk' : hd.1 = k' <;> simp [aset, alookup, hk, hk', ih, h]

theorem aset_aset {α : Type} (l : List (String × α)) (k : String) (v w : α) :
    aset (aset l k v) k w = aset l k w := by
  induction l with
  | nil => simp [aset]
  | cons hd tl ih =>
      by_cases h : hd.1 = k <;> simp [aset, h, ih]

theorem aremove_cons {α : Type} (hd : String × α) (tl : List (String × α)) (key : String) :
    aremove (hd :: tl) key =
      if hd.1 = key then aremove tl key else hd :: aremove tl key := by
  by_cases h : hd.1 = key <;> simp [aremove, List.filter_cons, h]

theorem alookup_aremove_self {α : Type} (l : List (String × α)) (k : String) :
    alookup (aremove l k) k = none := by
  induction l with
  | nil => simp [aremove, alookup]
  | cons hd tl ih =>
      by_cases h : hd.1 = k <;> simp [aremove_cons, h, alookup, ih]

theorem alookup_aremove_ne {α : Type} (l : List (String × α)) (k k' : String)
    (h : k' ≠ k) : alookup (aremove l k) k' = alookup l k' := by
  induction l with
  | nil => simp [aremove, alookup]
  | cons hd tl ih =>
      by_cases hk : hd.1 = k
      · have hne : hd.1 ≠ k' := by rw [hk]; exact Ne.symm h
        simp [aremove_cons, hk, alookup, hne, ih, Ne.symm h]
      · by_cases hk' : hd.1 = k' <;> simp [aremove_cons, hk, hk', alookup, ih, h]

/-! ## `ConnectionManager` (src/backend/app/ws/manager.py)

`active_connections : Dict[str, WebSocket]` is modelled by the list of
registered client ids (the transport handle itself carries no state the
claims need; the outcome of `websocket.send_json` for a given broadcast is
supplied by an environment function `sendOk : String → Bool`, `false`
standing for any raised exception — `WebSocketDisconnect`, `ConnectionError`,
`RuntimeError` or any other `Exception`, all of which lines 228–246 catch and
treat identically by marking the client disconnected).
`client_filters : Dict[str, Dict[str, Any]]` is an association list of
JSON objects. -/

/-- The connection registry (`ConnectionManager.__init__`, lines 29–33). -/
structure ConnectionManager where
  active_connections : List String
  client_filters : List (String × JObj)
deriving DecidableEq, Repr

/-- `self.client_filters.get(client_id, {})` (line 221). -/
def ConnectionManager.getFilters (cm : ConnectionManager) (client_id : String) : JObj :=
  match alookup cm.client_filters client_id with
  | some f => f
  | none => []

/-- `ConnectionManager.connect`, lines 51–53: register the connection with an
empty filter.  (The connection acknowledgement send is not modelled.) -/
def ConnectionManager.connect (cm : ConnectionManager) (client_id : String) :
    ConnectionManager :=
  { active_connections := cm.active_connections ++ [client_id],
    client_filters := aset cm.client_filters client_id [] }

/-- `ConnectionManager.disconnect`, lines 64–73: drop the client from both
maps (`dict.pop(key, None)` — a no-op when absent). -/
def ConnectionManager.disconnect (cm : ConnectionManager) (client_id : String) :
    ConnectionManager :=
  { active_connections := cm.active_connections.filter (fun c => c ≠ client_id),
    client_filters := aremove cm.client_filters client_id }

/-- Replies produced by `handle_client_message` (the `type` of the returned
dict, with the payload fields a claim inspects). -/
inductive WSReply where
  | subscribeAck (filters : JObj) : WSReply
  | unsubscribeAck : WSReply
  | pong : WSReply
  | errorReply (message : String) : WSReply
deriving DecidableEq, Repr

/-- `ConnectionManager.handle_client_message`, lines 75–133, on an
already-parsed JSON object (the `json.loads` step and its `JSONDecodeError`
branch are outside the model; the claims concern well-formed messages).

* `subscribe`: `WSSubscribeMessage(**message_data)` requires `filters` to be
  a dict or null/absent (anything else is a pydantic `ValidationError`,
  line 121); the stored filter is `subscribe_msg.filters or {}` (line 96).
* `unsubscribe`: stores `{}` (line 106).
* `ping`: replies `pong` with no state change (line 110).
* anything else: an error reply, no state change (lines 112–116). -/
def ConnectionManager.handle_client_message (cm : ConnectionManager)
    (client_id : String) (message_data : JObj) : ConnectionManager × WSReply :=
  match alookup message_data "type" with
  | some (.str "subscribe") =>
      match alookup message_data "filters" with
      | some (.obj fs) =>
          ({ cm with client_filters := aset cm.client_filters client_id fs },
            .subscribeAck fs)
      | some .null =>
          ({ cm with client_filters := aset cm.client_filters client_id [] },
            .subscribeAck [])
      | none =>
          ({ cm with client_filters := aset cm.client_filters client_id [] },
            .subscribeAck [])
      | some _ => (cm, .errorReply "Invalid message format")
  | some (.str "unsubscribe") =>
      ({ cm with client_filters := aset cm.client_filters client_id [] },
        .unsubscribeAck)
  | some (.str "ping") => (cm, .pong)
  | _ => (cm, .errorReply "Unknown message type")

/-- Python `d.get(k)` as a value: the entry for `k`, or `None` (`.null`)
when absent. -/
def pyGet (o : JObj) (k : String) : JValue :=
  match alookup o k with
  | some v => v
  | none => .null

/-- Lines 211–214 of `_broadcast_filtered`: the load direction used as the
filter match key.  `JValue.null` stands for Python `None`, which results when
`"load"` is absent, not a dict, or its `"direction"` key is absent or null. -/
def extractLoadDirection (assignment_data : JObj) : JValue :=
  match alookup assignment_data "load" with
  | some (.obj loadObj) => pyGet loadObj "direction"
  | _ => .null

/-- Lines 223–226: the client is skipped iff its filter's `direction` value
and the load direction are both truthy and differ
(`if filters.get("direction") and load_direction: if filters["direction"] !=
load_direction: continue`). -/
def skipsClient (filters : JObj) (load_direction : JValue) : Bool :=
  (pyGet filters "direction").truthy && load_direction.truthy &&
    !(JValue.beq (pyGet filters "direction") load_direction)

/-- Outcome of one `_broadcast_filtered` call: the clients the message was
delivered to, the clients whose send raised (collected in
`disconnected_clients`, lines 216 and 230–246), and the registry state after
the cleanup loop (lines 248–250). -/
structure BroadcastOutcome where
  message : JObj
  delivered : List String
  disconnected : List String
  state : ConnectionManager
deriving DecidableEq, Repr

/-- `ConnectionManager._broadcast_filtered`, lines 201–250.  The loop visits
every registered client; a client is attempted unless its filter skips it;
each attempted send either succeeds (delivered) or raises (`sendOk c =
false`), in which case the exception is caught and the client is queued for
disconnection.  Every exception class is caught (lines 230–246), so the loop
always reaches the remaining clients. -/
def ConnectionManager.broadcast_filtered (cm : ConnectionManager) (message : JObj)
    (assignment_data : JObj) (sendOk : String → Bool) : BroadcastOutcome :=
  let load_direction := extractLoadDirection assignment_data
  let attempted := cm.active_connections.filter
    (fun c => !(skipsClient (cm.getFilters c) load_direction))
  let disconnected := attempted.filter (fun c => !(sendOk c))
  { message := message,
    delivered := attempted.filter (fun c => sendOk c),
    disconnected := disconnected,
    state := disconnected.foldl ConnectionManager.disconnect cm }

/-- Lines 153–161 of `broadcast_assignment_update`: the outbound message type
chosen for an action. -/
def messageTypeFor (action : String) : String :=
  if action = "CREATE" then "assignment_created"
  else if action = "UPDATE" then "assignment_updated"
  else if action = "DELETE" then "assignment_deleted"
  else "assignment_updated"

/-- `ConnectionManager.broadcast_assignment_update`, lines 135–173: builds a
`WSAssignmentUpdate` message (the timestamp field is not modelled) and hands
it to `_broadcast_filtered` with the assignment data as the filter-matching
key. -/
def ConnectionManager.broadcast_assignment_update (cm : ConnectionManager)
    (assignment_id : Nat) (action : String) (user_id : Nat) (user_email : String)
    (assignment_data : JObj) (sendOk : String → Bool) : BroadcastOutcome :=
  cm.broadcast_filtered
    [("type", .str (messageTypeFor action)),
     ("assignment_id", .num assignment_id),
     ("action", .str action),
     ("user_id", .num user_id),
     ("user_email", .str user_email),
     ("data", .obj assignment_data)]
    assignment_data sendOk

/-- `ConnectionManager.broadcast_conflict`, lines 175–199: builds a
`WSConflictNotification` (timestamp not modelled) and hands it to
`_broadcast_filtered` with the conflicting assignment's current data as the
filter-matching key. -/
def ConnectionManager.broadcast_conflict (cm : ConnectionManager)
    (assignment_id : Nat) (current_version : Nat) (attempted_version : Nat)
    (current_data : JObj) (sendOk : String → Bool) : BroadcastOutcome :=
  cm.broadcast_filtered
    [("type", .str "conflict_detected"),
     ("assignment_id", .num assignment_id),
     ("current_version", .num current_version),
     ("attempted_version", .num attempted_version),
     ("current_data", .obj current_data),
     ("message", .str "Another user has modified this assignment")]
    current_data sendOk

/-- `ConnectionManager.get_client_info`, lines 286–291: one `{client_id,
filters}` record per registered connection. -/
def ConnectionManager.get_client_info (cm : ConnectionManager) :
    List (String × JObj) :=
  cm.active_connections.map (fun client_id => (client_id, cm.getFilters client_id))

/-! ## Entity model (src/backend/app/db/models.py, src/backend/app/db/base.py)

Timestamps (`created_at` / `updated_at` / `eta_*`) are opaque `Int`s; the
claims never compare them. -/

/-- `User` (models.py lines 36–74; only the fields the write path reads). -/
structure User where
  id : Nat
  email : String
  full_name : String
deriving DecidableEq, Repr

/-- `Ramp` (models.py lines 77–107). -/
structure Ramp where
  id : Nat
  code : String
  description : Option String
  direction : String
  type : String
deriving DecidableEq, Repr

/-- `Status` (models.py lines 110–120). -/
structure Status where
  id : Nat
  code : String
  label : String
  color : String
  sort_order : Nat
deriving DecidableEq, Repr

/-- `Load` (models.py lines 123–139). -/
structure Load where
  id : Nat
  reference : String
  direction : String
  notes : Option String
deriving DecidableEq, Repr

/-- `Assignment` (models.py lines 142–199) with `VersionMixin`'s `version`
column (base.py lines 27–34, `default=1`). -/
structure Assignment where
  id : Nat
  ramp_id : Nat
  load_id : Nat
  status_id : Nat
  eta_in : Option Int
  eta_out : Option Int
  created_by : Nat
  updated_by : Nat
  version : Nat
deriving DecidableEq, Repr

/-- `VersionMixin.increment_version` (base.py lines 32–34):
`self.version += 1`. -/
def Assignment.increment_version (a : Assignment) : Assignment :=
  { a with version := a.version + 1 }

/-- The relational store the handlers query, one list per table. -/
structure Database where
  users : List User
  ramps : List Ramp
  loads : List Load
  statuses : List Status
  assignments : List Assignment
deriving DecidableEq, Repr

/-- `select(Ramp).where(Ramp.id == i)` then `scalar_one_or_none()`. -/
def Database.findRamp (db : Database) (i : Nat) : Option Ramp :=
  db.ramps.find? (fun r => r.id == i)

/-- `select(Load).where(Load.id == i)` then `scalar_one_or_none()`. -/
def Database.findLoad (db : Database) (i : Nat) : Option Load :=
  db.loads.find? (fun l => l.id == i)

/-- `select(Status).where(Status.id == i)` then `scalar_one_or_none()`. -/
def Database.findStatus (db : Database) (i : Nat) : Option Status :=
  db.statuses.find? (fun s => s.id == i)

/-- `select(User).where(User.id == i)` then `scalar_one_or_none()`. -/
def Database.findUser (db : Database) (i : Nat) : Option User :=
  db.users.find? (fun u => u.id == i)

/-- `select(Assignment).where(Assignment.id == i)` then
`scalar_one_or_none()`. -/
def Database.findAssignment (db : Database) (i : Nat) : Option Assignment :=
  db.assignments.find? (fun a => a.id == i)

/-- `AssignmentDetailResponse` (schemas/assignment.py lines 53–62): the
assignment row with its `ramp`, `load`, `status`, `creator` and `updater`
relations resolved (`selectinload`). -/
structure AssignmentDetailResponse where
  id : Nat
  ramp_id : Nat
  load_id : Nat
  status_id : Nat
  eta_in : Option Int
  eta_out : Option Int
  created_by : Nat
  updated_by : Nat
  version : Nat
  ramp : Ramp
  load : Load
  status : Status
  creator : User
  updater : User
deriving DecidableEq, Repr

/-- The re-fetch with `selectinload(...)` followed by
`AssignmentDetailResponse.model_validate`: resolves the assignment's
relations against the store, `none` if a referenced row is missing. -/
def Database.resolveDetail (db : Database) (a : Assignment) :
    Option AssignmentDetailResponse :=
  match db.findRamp a.ramp_id, db.findLoad a.load_id, db.findStatus a.status_id,
      db.findUser a.created_by, db.findUser a.updated_by with
  | some ramp, some load, some status, some creator, some updater =>
      some { id := a.id, ramp_id := a.ramp_id, load_id := a.load_id,
             status_id := a.status_id, eta_in := a.eta_in, eta_out := a.eta_out,
             created_by := a.created_by, updated_by := a.updated_by,
             version := a.version, ramp := ramp, load := load, status := status,
             creator := creator, updater := updater }
  | _, _, _, _, _ => none

/-- `model_dump(mode="json")` of an `AssignmentDetailResponse`, restricted to
the fields `_broadcast_filtered` inspects plus the scalar columns (timestamps
are not modelled).  In particular `data["load"]["direction"]` is the resolved
load's direction, which is what broadcast filtering matches on. -/
def AssignmentDetailResponse.dump (r : AssignmentDetailResponse) : JObj :=
  [("id", .num r.id),
   ("ramp_id", .num r.ramp_id),
   ("load_id", .num r.load_id),
   ("status_id", .num r.status_id),
   ("created_by", .num r.created_by),
   ("updated_by", .num r.updated_by),
   ("version", .num r.version),
   ("ramp", .obj [("id", .num r.ramp.id), ("code", .str r.ramp.code),
                  ("direction", .str r.ramp.direction)]),
   ("load", .obj [("id", .num r.load.id), ("reference", .str r.load.reference),
                  ("direction", .str r.load.direction)]),
   ("status", .obj [("id", .num r.status.id), ("code", .str r.status.code)])]

/-! ## Assignment write path (src/backend/app/api/assignments.py)

Each handler is one database transaction: the claims' "no intervening commit
between check and write" corresponds to a handler being a single atomic step
on `Database` here, with per-entity serialization of transactions delegated
to the store (spec §5).  A handler returns its HTTP-level result, the
post-transaction store, the audit records written (`AuditService.log_action`)
and the `manager.broadcast_*` calls made. -/

/-- `AssignmentUpdate` (schemas/assignment.py lines 29–37): all columns
optional — `none` models *unset* (pydantic `exclude_unset`) — plus the
required `version`. -/
structure AssignmentUpdate where
  ramp_id : Option Nat := none
  load_id : Option Nat := none
  status_id : Option Nat := none
  eta_in : Option Int := none
  eta_out : Option Int := none
  version : Nat
deriving DecidableEq, Repr

/-- `AssignmentCreate` (schemas/assignment.py lines 13–26). -/
structure AssignmentCreate where
  ramp_id : Nat
  load_id : Nat
  status_id : Nat
  eta_in : Option Int := none
  eta_out : Option Int := none
deriving DecidableEq, Repr

/-- HTTP-level result of a write handler.  `notFound` is
`HTTPException(404, detail)`; `conflictResult` is `HTTPException(409,
ConflictError(...))` (schemas/assignment.py lines 65–72) carrying the stored
version, the caller's version and the resolved current snapshot; `ok` is the
200/201 body.  `serverError` covers the store raising on an unresolvable
relation during `model_validate` (unreachable in a referentially intact
store). -/
inductive UpdateResult where
  | notFound (detail : String) : UpdateResult
  | conflictResult (current_version : Nat) (provided_version : Nat)
      (current_data : AssignmentDetailResponse) : UpdateResult
  | ok (response : AssignmentDetailResponse) : UpdateResult
  | serverError : UpdateResult
deriving DecidableEq, Repr

/-- The HTTP status each result is served with.  422 is FastAPI's status for
request-validation failures (e.g. a missing `version` field), produced before
the handler runs. -/
def UpdateResult.statusCode : UpdateResult → Nat
  | .notFound _ => 404
  | .conflictResult _ _ _ => 409
  | .ok _ => 200
  | .serverError => 500

/-- FastAPI `HTTP_422_UNPROCESSABLE_ENTITY`, the request-validation status. -/
def VALIDATION_FAILURE_STATUS : Nat := 422

/-- One `AuditService.log_action` call (services/audit.py), with the
before/after snapshots from `assignment.dict()`. -/
structure AuditRecord where
  user_id : Nat
  entity_type : String
  entity_id : Nat
  action : String
  before : Option Assignment
  after : Option Assignment
deriving DecidableEq, Repr

/-- One `manager.broadcast_*` call issued by a handler. -/
inductive BroadcastCall where
  | assignmentUpdate (assignment_id : Nat) (action : String) (user_id : Nat)
      (user_email : String) (data : AssignmentDetailResponse) : BroadcastCall
  | conflictNotice (assignment_id : Nat) (current_version : Nat)
      (attempted_version : Nat) (current_data : AssignmentDetailResponse) :
      BroadcastCall
deriving DecidableEq, Repr

/-- Everything observable about one handler transaction. -/
structure ApiOutcome where
  result : UpdateResult
  db : Database
  audits : List AuditRecord
  broadcasts : List BroadcastCall
deriving DecidableEq, Repr

/-- Lines 222–224 (`for field, value in update_data.items(): setattr(...)`):
apply exactly the set fields (`exclude_unset=True, exclude={"version"}`). -/
def Assignment.applyUpdate (a : Assignment) (u : AssignmentUpdate) : Assignment :=
  { a with
    ramp_id := u.ramp_id.getD a.ramp_id,
    load_id := u.load_id.getD a.load_id,
    status_id := u.status_id.getD a.status_id,
    eta_in := match u.eta_in with | some v => some v | none => a.eta_in,
    eta_out := match u.eta_out with | some v => some v | none => a.eta_out }

/-- Write back the mutated row under its primary key (the ORM flushes the
mutated `assignment` object). -/
def Database.replaceAssignment (db : Database) (a : Assignment) : Database :=
  { db with assignments :=
      db.assignments.map (fun x => if x.id = a.id then a else x) }

/-- Lines 222–227: the row as mutated by a successful update — the set
fields applied, `updated_by` stamped with the acting user, and
`increment_version()` called once. -/
def updatedRow (a : Assignment) (u : AssignmentUpdate) (usr : User) : Assignment :=
  ({ a.applyUpdate u with updated_by := usr.id }).increment_version

/-- `update_assignment` (api/assignments.py lines 146–267), one transaction:

1. fetch the assignment (line 159); absent → 404 `"Assignment not found"`;
2. optimistic-locking check (line 165): stored `version` ≠ request `version`
   → re-fetch the current snapshot with relations (lines 167–181), broadcast
   a conflict notification (lines 184–189), raise 409 with `ConflictError`
   (lines 191–198) — the store is not mutated;
3. reference validation in order ramp, load, status (lines 205–220) for the
   fields the request sets; a missing reference → 404 before any mutation
   (the session rolls back, so no audit record and no broadcast);
4. apply the set fields, stamp `updated_by`, `increment_version()` (lines
   222–227), write the audit record (lines 231–239), commit, re-fetch with
   relations (lines 244–256) and broadcast the update (lines 259–265). -/
def update_assignment (db : Database) (assignment_id : Nat)
    (assignment_in : AssignmentUpdate) (current_user : User) : ApiOutcome :=
  match db.findAssignment assignment_id with
  | none => ⟨.notFound "Assignment not found", db, [], []⟩
  | some assignment =>
    if assignment.version ≠ assignment_in.version then
      match db.resolveDetail assignment with
      | none => ⟨.serverError, db, [], []⟩
      | some current_data =>
          ⟨.conflictResult assignment.version assignment_in.version current_data,
            db, [],
            [.conflictNotice assignment_id assignment.version
              assignment_in.version current_data]⟩
    else if assignment_in.ramp_id.any (fun rid => (db.findRamp rid).isNone) then
      ⟨.notFound "Ramp not found", db, [], []⟩
    else if assignment_in.load_id.any (fun lid => (db.findLoad lid).isNone) then
      ⟨.notFound "Load not found", db, [], []⟩
    else if assignment_in.status_id.any (fun sid => (db.findStatus sid).isNone) then
      ⟨.notFound "Status not found", db, [], []⟩
    else
      let updated := updatedRow assignment assignment_in current_user
      let db1 := db.replaceAssignment updated
      match db1.resolveDetail updated with
      | none => ⟨.serverError, db, [], []⟩
      | some response =>
          ⟨.ok response, db1,
            [⟨current_user.id, "assignment", assignment.id, "UPDATE",
              some assignment, some updated⟩],
            [.assignmentUpdate assignment_id "UPDATE" current_user.id
              current_user.email response]⟩

/-- The id the store assigns to a new row (autoincrement primary key). -/
def Database.nextAssignmentId (db : Database) : Nat :=
  (db.assignments.foldl (fun m a => max m a.id) 0) + 1

/-- Lines 74–79 of `create_assignment`: the inserted row — request fields,
`created_by`/`updated_by` stamped with the acting user, and the
`VersionMixin` column default `version = 1`. -/
def createdRow (db : Database) (assignment_in : AssignmentCreate)
    (current_user : User) : Assignment :=
  { id := db.nextAssignmentId,
    ramp_id := assignment_in.ramp_id,
    load_id := assignment_in.load_id,
    status_id := assignment_in.status_id,
    eta_in := assignment_in.eta_in,
    eta_out := assignment_in.eta_out,
    created_by := current_user.id,
    updated_by := current_user.id,
    version := 1 }

/-- `create_assignment` (api/assignments.py lines 54–119), one transaction:
validate ramp, load, status in order (404 on a missing reference, before any
mutation), then insert the row — `version` starts at 1, the `VersionMixin`
column default — audit `CREATE`, commit, re-fetch with relations and
broadcast. -/
def create_assignment (db : Database) (assignment_in : AssignmentCreate)
    (current_user : User) : ApiOutcome :=
  if (db.findRamp assignment_in.ramp_id).isNone then
    ⟨.notFound "Ramp not found", db, [], []⟩
  else if (db.findLoad assignment_in.load_id).isNone then
    ⟨.notFound "Load not found", db, [], []⟩
  else if (db.findStatus assignment_in.status_id).isNone then
    ⟨.notFound "Status not found", db, [], []⟩
  else
    let assignment := createdRow db assignment_in current_user
    let db1 := { db with assignments := db.assignments ++ [assignment] }
    match db1.resolveDetail assignment with
    | none => ⟨.serverError, db, [], []⟩
    | some response =>
        ⟨.ok response, db1,
          [⟨current_user.id, "assignment", assignment.id, "CREATE",
            none, some assignment⟩],
          [.assignmentUpdate assignment.id "CREATE" current_user.id
            current_user.email response]⟩

/-! ## Registry and broadcast lemmas -/

theorem mem_active_foldl_disconnect (ds : List String) (cm : ConnectionManager)
    (c : String) :
    c ∈ (ds.foldl ConnectionManager.disconnect cm).active_connections ↔
      c ∈ cm.active_connections ∧ c ∉ ds := by
  induction ds generalizing cm with
  | nil => simp
  | cons d ds ih =>
      simp only [List.foldl_cons, ih, ConnectionManager.disconnect, List.mem_filter,
        List.mem_cons]
      constructor
      · rintro ⟨⟨hc, hne⟩, hds⟩
        exact ⟨hc, by simp_all⟩
      · rintro ⟨hc, hni⟩
        refine ⟨⟨hc, ?_⟩, fun hd => hni (Or.inr hd)⟩
        simpa using fun hcd => hni (Or.inl hcd)

theorem alookup_filters_foldl_disconnect (ds : List String) (cm : ConnectionManager)
    (c : String) :
    alookup (ds.foldl ConnectionManager.disconnect cm).client_filters c =
      if c ∈ ds then none else alookup cm.client_filters c := by
  induction ds generalizing cm with
  | nil => simp
  | cons d ds ih =>
      by_cases h : c = d
      · subst h
        simp only [List.foldl_cons, ih, ConnectionManager.disconnect]
        by_cases hm : c ∈ ds
        · simp [hm]
        · simp [hm, alookup_aremove_self]
      · simp only [List.foldl_cons, ih, ConnectionManager.disconnect]
        by_cases hm : c ∈ ds
        · simp [hm, h]
        · simp [hm, h, alookup_aremove_ne _ _ _ h]

theorem mem_delivered_broadcast_filtered (cm : ConnectionManager) (msg data : JObj)
    (sendOk : String → Bool) (c : String) :
    c ∈ (cm.broadcast_filtered msg data sendOk).delivered ↔
      c ∈ cm.active_connections ∧
        skipsClient (cm.getFilters c) (extractLoadDirection data) = false ∧
        sendOk c = true := by
  simp [ConnectionManager.broadcast_filtered, List.mem_filter, and_assoc]
  tauto

theorem mem_disconnected_broadcast_filtered (cm : ConnectionManager) (msg data : JObj)
    (sendOk : String → Bool) (c : String) :
    c ∈ (cm.broadcast_filtered msg data sendOk).disconnected ↔
      c ∈ cm.active_connections ∧
        skipsClient (cm.getFilters c) (extractLoadDirection data) = false ∧
        sendOk c = false := by
  simp [ConnectionManager.broadcast_filtered, List.mem_filter, and_assoc]
  tauto

theorem broadcast_filtered_state_active (cm : ConnectionManager) (msg data : JObj)
    (sendOk : String → Bool) (c : String) :
    c ∈ (cm.broadcast_filtered msg data sendOk).state.active_connections ↔
      c ∈ cm.active_connections ∧
        ¬(skipsClient (cm.getFilters c) (extractLoadDirection data) = false ∧
          sendOk c = false) := by
  have h := mem_disconnected_broadcast_filtered cm msg data sendOk c
  simp only [ConnectionManager.broadcast_filtered] at h ⊢
  rw [mem_active_foldl_disconnect]
  constructor
  · rintro ⟨hc, hnd⟩
    refine ⟨hc, fun ⟨hs, hf⟩ => hnd ?_⟩
    exact (List.mem_filter.mpr ⟨List.mem_filter.mpr ⟨hc, by simp [hs]⟩, by simp [hf]⟩)
  · rintro ⟨hc, hna⟩
    refine ⟨hc, fun hd => hna ?_⟩
    have := List.mem_filter.mp hd
    have h2 := List.mem_filter.mp this.1
    refine ⟨by simpa using h2.2, by simpa using this.2⟩

theorem alookup_map_self {α : Type} (l : List String) (g : String → α) (c : String)
    (h : c ∈ l) : alookup (l.map (fun k => (k, g k))) c = some (g c) := by
  induction l with
  | nil => cases h
  | cons d tl ih =>
      by_cases hd : d = c
      · simp [alookup, hd]
      · have hmem : c ∈ tl := by
          rcases List.mem_cons.mp h with h1 | h1
          · exact absurd h1.symm hd
          · exact h1
        simp [alookup, hd, ih hmem]

/-- A broadcast whose payload resolves a non-empty load direction `d` is
delivered to a live client exactly when the client's filter carries no truthy
`direction` value, or carries exactly `d`. -/
theorem delivered_broadcast_filtered_direction (cm : ConnectionManager)
    (msg data : JObj) (sendOk : String → Bool) (c : String) (d : String)
    (hc : c ∈ cm.active_connections) (hs : sendOk c = true)
    (hd : extractLoadDirection data = .str d) (hne : d ≠ "") :
    c ∈ (cm.broadcast_filtered msg data sendOk).delivered ↔
      ((pyGet (cm.getFilters c) "direction").truthy = false ∨
        pyGet (cm.getFilters c) "direction" = .str d) := by
  rw [mem_delivered_broadcast_filtered]
  have htr : (JValue.str d).truthy = true := by
    simp [JValue.truthy, hne]
  constructor
  · rintro ⟨-, hskip, -⟩
    by_cases hft : (pyGet (cm.getFilters c) "direction").truthy = true
    · right
      rw [skipsClient, hd, htr] at hskip
      simp only [hft, Bool.true_and, Bool.and_eq_false_imp] at hskip
      rw [← JValue.beq_iff_eq]
      simpa using hskip
    · left
      simpa using hft
  · intro hmatch
    refine ⟨hc, ?_, hs⟩
    rw [skipsClient, hd]
    rcases hmatch with hft | heq
    · simp [hft]
    · simp [heq, JValue.beq_iff_eq]

/-! ## Claim theorems -/

/-- C1 (counterexample): a ConflictAdvisory broadcast is NOT delivered to
every registered client regardless of filter.  Client `editor` subscribes
with filter direction `OB` through the normal protocol; a conflict broadcast
for an assignment whose load direction is `IB` is delivered to the
unfiltered `viewer` but skips `editor`, although `editor` is registered. -/
theorem conflict_broadcast_not_delivered_to_all :
    let cm0 : ConnectionManager := ⟨["viewer", "editor"], [("viewer", []), ("editor", [])]⟩
    let cm := (cm0.handle_client_message "editor"
      [("type", .str "subscribe"), ("filters", .obj [("direction", .str "OB")])]).1
    let o := cm.broadcast_conflict 1 2 1
      [("load", .obj [("direction", .str "IB")])] (fun _ => true)
    "editor" ∈ cm.active_connections ∧ "editor" ∉ o.delivered ∧
      "viewer" ∈ o.delivered := by decide

/-- C1 (amended): `broadcast_conflict` routes the conflict_detected event
through the same per-client direction filter as assignment events: a live
client whose send succeeds receives it iff its filter sets no truthy
`direction`, or sets exactly the conflicting assignment's load direction. -/
theorem conflict_broadcast_respects_filter (cm : ConnectionManager)
    (assignment_id current_version attempted_version : Nat) (current_data : JObj)
    (sendOk : String → Bool) (c d : String)
    (hc : c ∈ cm.active_connections) (hs : sendOk c = true)
    (hd : extractLoadDirection current_data = .str d) (hne : d ≠ "") :
    c ∈ (cm.broadcast_conflict assignment_id current_version attempted_version
        current_data sendOk).delivered ↔
      ((pyGet (cm.getFilters c) "direction").truthy = false ∨
        pyGet (cm.getFilters c) "direction" = .str d) :=
  delivered_broadcast_filtered_direction cm _ current_data sendOk c d hc hs hd hne

/-- Witness for `conflict_broadcast_respects_filter` at a registered client
whose filter direction `OB` differs from the load direction `IB`. -/
theorem conflict_broadcast_respects_filter_witness :
    ("editor" ∈ (⟨["viewer", "editor"],
        [("viewer", []), ("editor", [("direction", JValue.str "OB")])]⟩ :
        ConnectionManager).active_connections ∧
      extractLoadDirection [("load", .obj [("direction", .str "IB")])] = .str "IB" ∧
      ("IB" : String) ≠ "") ∧
    ("editor" ∈ ((⟨["viewer", "editor"],
        [("viewer", []), ("editor", [("direction", JValue.str "OB")])]⟩ :
        ConnectionManager).broadcast_conflict 1 2 1
        [("load", .obj [("direction", .str "IB")])] (fun _ => true)).delivered ↔
      ((pyGet ((⟨["viewer", "editor"],
          [("viewer", []), ("editor", [("direction", JValue.str "OB")])]⟩ :
          ConnectionManager).getFilters "editor") "direction").truthy = false ∨
        pyGet ((⟨["viewer", "editor"],
          [("viewer", []), ("editor", [("direction", JValue.str "OB")])]⟩ :
          ConnectionManager).getFilters "editor") "direction" = .str "IB")) :=
  ⟨⟨by decide, by decide, by decide⟩,
    conflict_broadcast_respects_filter _ 1 2 1 _ _ "editor" "IB"
      (by decide) rfl (by decide) (by decide)⟩

/-- C6 (counterexample): delivery of assignment events is NOT "filter empty
OR filter direction equals load direction".  A client subscribes (through
the normal protocol) with the non-empty filter `{"ramp_type": "PRIME"}`,
which sets no direction; an event with load direction `IB` is still
delivered to it, although its filter is neither empty nor direction-equal. -/
theorem assignment_event_filter_emptiness_counterexample :
    let cm0 : ConnectionManager := ⟨["c1"], [("c1", [])]⟩
    let cm := (cm0.handle_client_message "c1"
      [("type", .str "subscribe"), ("filters", .obj [("ramp_type", .str "PRIME")])]).1
    let o := cm.broadcast_assignment_update 1 "UPDATE" 1 "a@x"
      [("load", .obj [("direction", .str "IB")])] (fun _ => true)
    cm.getFilters "c1" ≠ [] ∧ alookup (cm.getFilters "c1") "direction" = none ∧
      "c1" ∈ o.delivered := by decide

/-- C6 (amended): for a Created/Updated/Deleted assignment event whose data
resolves a non-empty load direction `d`, a live client whose send succeeds
is delivered the event iff its filter sets no truthy `direction` value
(in particular iff its filter is empty) or sets exactly `d` — exact tag
equality or wildcard only. -/
theorem assignment_event_delivery_direction_match (cm : ConnectionManager)
    (assignment_id : Nat) (action : String) (user_id : Nat) (user_email : String)
    (data : JObj) (sendOk : String → Bool) (c d : String)
    (hc : c ∈ cm.active_connections) (hs : sendOk c = true)
    (hd : extractLoadDirection data = .str d) (hne : d ≠ "") :
    c ∈ (cm.broadcast_assignment_update assignment_id action user_id user_email
        data sendOk).delivered ↔
      ((pyGet (cm.getFilters c) "direction").truthy = false ∨
        pyGet (cm.getFilters c) "direction" = .str d) :=
  delivered_broadcast_filtered_direction cm _ data sendOk c d hc hs hd hne

/-- Witness for `assignment_event_delivery_direction_match`: one client
filtered on direction `IB`, an Updated event with load direction `IB`. -/
theorem assignment_event_delivery_direction_match_witness :
    ("ib" ∈ (⟨["ib", "all"],
        [("ib", [("direction", JValue.str "IB")]), ("all", [])]⟩ :
        ConnectionManager).active_connections ∧
      extractLoadDirection [("load", .obj [("direction", .str "IB")])] = .str "IB" ∧
      ("IB" : String) ≠ "") ∧
    ("ib" ∈ ((⟨["ib", "all"],
        [("ib", [("direction", JValue.str "IB")]), ("all", [])]⟩ :
        ConnectionManager).broadcast_assignment_update 5 "UPDATE" 1 "a@x"
        [("load", .obj [("direction", .str "IB")])] (fun _ => true)).delivered ↔
      ((pyGet ((⟨["ib", "all"],
          [("ib", [("direction", JValue.str "IB")]), ("all", [])]⟩ :
          ConnectionManager).getFilters "ib") "direction").truthy = false ∨
        pyGet ((⟨["ib", "all"],
          [("ib", [("direction", JValue.str "IB")]), ("all", [])]⟩ :
          ConnectionManager).getFilters "ib") "direction" = .str "IB")) :=
  ⟨⟨by decide, by decide, by decide⟩,
    assignment_event_delivery_direction_match _ 5 "UPDATE" 1 "a@x" _ _ "ib" "IB"
      (by decide) rfl (by decide) (by decide)⟩

/-- C9: an event whose payload resolves no load direction (no `load` dict,
or its `direction` is null/absent — all of which make the match key `None`)
is delivered to every live client whose send succeeds, direction-filtered
clients included: a missing match key acts as a wildcard on the event side. -/
theorem missing_load_direction_is_wildcard (cm : ConnectionManager)
    (assignment_id : Nat) (action : String) (user_id : Nat) (user_email : String)
    (data : JObj) (sendOk : String → Bool) (c : String)
    (hld : extractLoadDirection data = .null)
    (hc : c ∈ cm.active_connections) (hs : sendOk c = true) :
    c ∈ (cm.broadcast_assignment_update assignment_id action user_id user_email
        data sendOk).delivered := by
  show c ∈ (cm.broadcast_filtered _ data sendOk).delivered
  rw [mem_delivered_broadcast_filtered]
  exact ⟨hc, by simp [skipsClient, hld, JValue.truthy], hs⟩

/-- Witness for `missing_load_direction_is_wildcard`: a client filtered on
direction `OB` still receives an event whose data has no `load` entry. -/
theorem missing_load_direction_is_wildcard_witness :
    extractLoadDirection [("id", JValue.num 7)] = .null ∧
    "c1" ∈ ((⟨["c1"], [("c1", [("direction", JValue.str "OB")])]⟩ :
        ConnectionManager).broadcast_assignment_update 7 "UPDATE" 1 "a@x"
        [("id", JValue.num 7)] (fun _ => true)).delivered :=
  ⟨by decide,
    missing_load_direction_is_wildcard _ 7 "UPDATE" 1 "a@x" _ _ "c1"
      (by decide) (by decide) rfl⟩

/-- C7: a failing send during a broadcast is caught, the failing client is
removed from both registry maps by the cleanup loop, and every other live
client whose filter matches and whose send succeeds is still delivered the
event. -/
theorem broadcast_send_failure_isolated (cm : ConnectionManager)
    (msg data : JObj) (sendOk : String → Bool) (f c : String)
    (hfm : f ∈ cm.active_connections)
    (hfs : skipsClient (cm.getFilters f) (extractLoadDirection data) = false)
    (hff : sendOk f = false)
    (hcm : c ∈ cm.active_connections)
    (hcs : skipsClient (cm.getFilters c) (extractLoadDirection data) = false)
    (hcok : sendOk c = true) :
    f ∈ (cm.broadcast_filtered msg data sendOk).disconnected ∧
    f ∉ (cm.broadcast_filtered msg data sendOk).state.active_connections ∧
    alookup (cm.broadcast_filtered msg data sendOk).state.client_filters f = none ∧
    c ∈ (cm.broadcast_filtered msg data sendOk).delivered := by
  have hfd : f ∈ (cm.broadcast_filtered msg data sendOk).disconnected :=
    (mem_disconnected_broadcast_filtered cm msg data sendOk f).mpr ⟨hfm, hfs, hff⟩
  refine ⟨hfd, ?_, ?_, ?_⟩
  · intro hmem
    exact ((broadcast_filtered_state_active cm msg data sendOk f).mp hmem).2 ⟨hfs, hff⟩
  · have : (cm.broadcast_filtered msg data sendOk).state =
        ((cm.broadcast_filtered msg data sendOk).disconnected).foldl
          ConnectionManager.disconnect cm := rfl
    rw [this, alookup_filters_foldl_disconnect, if_pos hfd]
  · exact (mem_delivered_broadcast_filtered cm msg data sendOk c).mpr ⟨hcm, hcs, hcok⟩

/-- Witness for `broadcast_send_failure_isolated`: three live clients, the
middle one's transport raises; it is removed and the other two are still
delivered. -/
theorem broadcast_send_failure_isolated_witness :
    ("b" ∈ (⟨["a", "b", "c"], [("a", []), ("b", []), ("c", [])]⟩ :
        ConnectionManager).active_connections ∧
      "a" ∈ (⟨["a", "b", "c"], [("a", []), ("b", []), ("c", [])]⟩ :
        ConnectionManager).active_connections) ∧
    ("b" ∈ ((⟨["a", "b", "c"], [("a", []), ("b", []), ("c", [])]⟩ :
        ConnectionManager).broadcast_filtered [("type", .str "assignment_updated")]
        [("id", JValue.num 1)] (fun x => x ≠ "b")).disconnected ∧
      "b" ∉ ((⟨["a", "b", "c"], [("a", []), ("b", []), ("c", [])]⟩ :
        ConnectionManager).broadcast_filtered [("type", .str "assignment_updated")]
        [("id", JValue.num 1)] (fun x => x ≠ "b")).state.active_connections ∧
      alookup ((⟨["a", "b", "c"], [("a", []), ("b", []), ("c", [])]⟩ :
        ConnectionManager).broadcast_filtered [("type", .str "assignment_updated")]
        [("id", JValue.num 1)] (fun x => x ≠ "b")).state.client_filters "b" = none ∧
      "a" ∈ ((⟨["a", "b", "c"], [("a", []), ("b", []), ("c", [])]⟩ :
        ConnectionManager).broadcast_filtered [("type", .str "assignment_updated")]
        [("id", JValue.num 1)] (fun x => x ≠ "b")).delivered) :=
  ⟨⟨by decide, by decide⟩,
    broadcast_send_failure_isolated _ _ _ _ "b" "a"
      (by decide) (by decide) (by decide) (by decide) (by decide) (by decide)⟩

/-- C8: for a registered client, subscribing with `{"direction": "IB"}` and
then querying the registry returns exactly that filter; unsubscribing resets
the filter to empty; a second unsubscribe acknowledges normally and leaves
the state unchanged (idempotence, no error reply). -/
theorem subscribe_roundtrip_unsubscribe_idempotent (cm : ConnectionManager)
    (c : String) (hc : c ∈ cm.active_connections) :
    let step1 := cm.handle_client_message c
      [("type", .str "subscribe"), ("filters", .obj [("direction", .str "IB")])]
    let step2 := step1.1.handle_client_message c [("type", .str "unsubscribe")]
    let step3 := step2.1.handle_client_message c [("type", .str "unsubscribe")]
    step1.2 = .subscribeAck [("direction", .str "IB")] ∧
    alookup step1.1.get_client_info c = some [("direction", .str "IB")] ∧
    step2.2 = .unsubscribeAck ∧
    alookup step2.1.get_client_info c = some [] ∧
    step3.1 = step2.1 ∧
    step3.2 = .unsubscribeAck := by
  intro step1 step2 step3
  have h1 : step1 = ({ cm with client_filters := aset cm.client_filters c [("direction", .str "IB")] }, .subscribeAck [("direction", .str "IB")]) := rfl
  have h2 : step2 = ({ cm with client_filters := aset (aset cm.client_filters c [("direction", .str "IB")]) c [] }, .unsubscribeAck) := rfl
  have h3 : step3 = ({ cm with client_filters := aset (aset (aset cm.client_filters c [("direction", .str "IB")]) c []) c [] }, .unsubscribeAck) := rfl
  refine ⟨by rw [h1], ?_, by rw [h2], ?_, ?_, by rw [h3]⟩
  · rw [h1, ConnectionManager.get_client_info,
      alookup_map_self _ _ _ hc, ConnectionManager.getFilters]
    simp [alookup_aset_self]
  · rw [h2, ConnectionManager.get_client_info,
      alookup_map_self _ _ _ hc, ConnectionManager.getFilters]
    simp [alookup_aset_self]
  · rw [h2, h3, aset_aset]

/-- Witness for `subscribe_roundtrip_unsubscribe_idempotent` on a registry
with one registered client. -/
theorem subscribe_roundtrip_unsubscribe_idempotent_witness :
    "c1" ∈ (⟨["c1"], [("c1", [])]⟩ : ConnectionManager).active_connections ∧
    (let step1 := (⟨["c1"], [("c1", [])]⟩ : ConnectionManager).handle_client_message
        "c1" [("type", .str "subscribe"), ("filters", .obj [("direction", .str "IB")])]
     let step2 := step1.1.handle_client_message "c1" [("type", .str "unsubscribe")]
     let step3 := step2.1.handle_client_message "c1" [("type", .str "unsubscribe")]
     step1.2 = .subscribeAck [("direction", .str "IB")] ∧
     alookup step1.1.get_client_info "c1" = some [("direction", .str "IB")] ∧
     step2.2 = .unsubscribeAck ∧
     alookup step2.1.get_client_info "c1" = some [] ∧
     step3.1 = step2.1 ∧
     step3.2 = .unsubscribeAck) :=
  ⟨by decide, subscribe_roundtrip_unsubscribe_idempotent _ "c1" (by decide)⟩

/-- C10: handling a subscribe or unsubscribe for any client id — registered
or not — acknowledges normally and writes a filter entry for that id into
`client_filters` without touching `active_connections`; hence a filter entry
can exist for an id with no live connection. -/
theorem subscribe_without_connection (cm : ConnectionManager) (c : String)
    (fs : JObj) (hc : c ∉ cm.active_connections) :
    let sub := cm.handle_client_message c
      [("type", .str "subscribe"), ("filters", .obj fs)]
    let unsub := cm.handle_client_message c [("type", .str "unsubscribe")]
    sub.2 = .subscribeAck fs ∧
    alookup sub.1.client_filters c = some fs ∧
    sub.1.active_connections = cm.active_connections ∧
    c ∉ sub.1.active_connections ∧
    unsub.2 = .unsubscribeAck ∧
    alookup unsub.1.client_filters c = some [] ∧
    unsub.1.active_connections = cm.active_connections := by
  intro sub unsub
  have h1 : sub = ({ cm with client_filters := aset cm.client_filters c fs }, .subscribeAck fs) := rfl
  have h2 : unsub = ({ cm with client_filters := aset cm.client_filters c [] }, .unsubscribeAck) := rfl
  exact ⟨by rw [h1], by rw [h1]; exact alookup_aset_self _ _ _, by rw [h1],
    by rw [h1]; exact hc, by rw [h2], by rw [h2]; exact alookup_aset_self _ _ _,
    by rw [h2]⟩

/-- Witness for `subscribe_without_connection`: an id that was never
registered gets a filter entry while the connection set stays empty. -/
theorem subscribe_without_connection_witness :
    "ghost" ∉ (⟨[], []⟩ : ConnectionManager).active_connections ∧
    (let sub := (⟨[], []⟩ : ConnectionManager).handle_client_message "ghost"
        [("type", .str "subscribe"), ("filters", .obj [("direction", .str "IB")])]
     let unsub := (⟨[], []⟩ : ConnectionManager).handle_client_message "ghost"
        [("type", .str "unsubscribe")]
     sub.2 = .subscribeAck [("direction", .str "IB")] ∧
     alookup sub.1.client_filters "ghost" = some [("direction", .str "IB")] ∧
     sub.1.active_connections = (⟨[], []⟩ : ConnectionManager).active_connections ∧
     "ghost" ∉ sub.1.active_connections ∧
     unsub.2 = .unsubscribeAck ∧
     alookup unsub.1.client_filters "ghost" = some [] ∧
     unsub.1.active_connections = (⟨[], []⟩ : ConnectionManager).active_connections) :=
  ⟨by decide, subscribe_without_connection _ "ghost" _ (by decide)⟩

/-! ## Write-path lemmas -/

theorem find_replace_list (l : List Assignment) (aid : Nat) (a upd : Assignment)
    (h : l.find? (fun x => x.id == aid) = some a) (hid : upd.id = a.id) :
    (l.map (fun x => if x.id = upd.id then upd else x)).find?
      (fun x => x.id == aid) = some upd := by
  have haid : a.id = aid := by simpa using List.find?_some h
  induction l with
  | nil => simp [List.find?] at h
  | cons x xs ih =>
      rw [List.find?_cons] at h
      simp only [List.map_cons, List.find?_cons]
      cases hb : (x.id == aid) with
      | true =>
          rw [hb] at h
          have hxa : x = a := by injection h
          subst hxa
          have hxu : x.id = upd.id := by rw [hid]
          have hu : (upd.id == aid) = true := by simp [hid, haid]
          rw [if_pos hxu, hu]
      | false =>
          rw [hb] at h
          have hxu : ¬x.id = upd.id := by
            rw [hid, haid]
            simpa using hb
          rw [if_neg hxu, hb]
          exact ih h

theorem findAssignment_replace (db : Database) (aid : Nat) (a upd : Assignment)
    (h : db.findAssignment aid = some a) (hid : upd.id = a.id) :
    (db.replaceAssignment upd).findAssignment aid = some upd :=
  find_replace_list db.assignments aid a upd h hid

theorem resolveDetail_replace (db : Database) (upd a : Assignment) :
    (db.replaceAssignment upd).resolveDetail a = db.resolveDetail a := rfl

theorem resolveDetail_fields (db : Database) (a : Assignment)
    (d : AssignmentDetailResponse) (h : db.resolveDetail a = some d) :
    d.version = a.version ∧ d.id = a.id ∧
    db.findRamp a.ramp_id = some d.ramp ∧
    db.findLoad a.load_id = some d.load ∧
    db.findStatus a.status_id = some d.status := by
  unfold Database.resolveDetail at h
  split at h
  · cases h
    simp_all
  · cases h

/-- C4: an update whose supplied version differs from the stored version
returns 409 Conflict — a status distinct from validation failure (422) and
not-found (404) — carrying exactly the stored current version, the caller's
attempted version and the current snapshot with its relations resolved from
the store; the store is unchanged and no audit record is written. -/
theorem conflict_on_version_mismatch (db : Database) (assignment_id : Nat)
    (a : Assignment) (u : AssignmentUpdate) (usr : User)
    (cd : AssignmentDetailResponse)
    (ha : db.findAssignment assignment_id = some a)
    (hv : a.version ≠ u.version)
    (hres : db.resolveDetail a = some cd) :
    (update_assignment db assignment_id u usr).result =
      .conflictResult a.version u.version cd ∧
    (update_assignment db assignment_id u usr).result.statusCode = 409 ∧
    (update_assignment db assignment_id u usr).result.statusCode ≠ 404 ∧
    (update_assignment db assignment_id u usr).result.statusCode ≠
      VALIDATION_FAILURE_STATUS ∧
    (update_assignment db assignment_id u usr).db = db ∧
    (update_assignment db assignment_id u usr).audits = [] ∧
    cd.version = a.version ∧
    db.findRamp a.ramp_id = some cd.ramp ∧
    db.findLoad a.load_id = some cd.load ∧
    db.findStatus a.status_id = some cd.status := by
  have hout : update_assignment db assignment_id u usr =
      ⟨.conflictResult a.version u.version cd, db, [],
        [.conflictNotice assignment_id a.version u.version cd]⟩ := by
    simp [update_assignment, ha, hv, hres]
  have hf := resolveDetail_fields db a cd hres
  rw [hout]
  exact ⟨rfl, rfl, by simp [UpdateResult.statusCode],
    by simp [UpdateResult.statusCode, VALIDATION_FAILURE_STATUS], rfl, rfl,
    hf.1, hf.2.2.1, hf.2.2.2.1, hf.2.2.2.2⟩

/-- Witness for `conflict_on_version_mismatch`: stored version 2,
attempted version 1. -/
theorem conflict_on_version_mismatch_witness :
    ((⟨[⟨1, "admin@x", "Admin"⟩], [⟨1, "R1", none, "IB", "PRIME"⟩],
        [⟨1, "L1", "IB", none⟩], [⟨1, "PLANNED", "Planned", "green", 0⟩],
        [⟨1, 1, 1, 1, none, none, 1, 1, 2⟩]⟩ :
        Database).findAssignment 1 = some ⟨1, 1, 1, 1, none, none, 1, 1, 2⟩ ∧
      (2 : Nat) ≠ 1) ∧
    (update_assignment (⟨[⟨1, "admin@x", "Admin"⟩], [⟨1, "R1", none, "IB", "PRIME"⟩],
        [⟨1, "L1", "IB", none⟩], [⟨1, "PLANNED", "Planned", "green", 0⟩],
        [⟨1, 1, 1, 1, none, none, 1, 1, 2⟩]⟩ : Database) 1
        { eta_in := some 5, version := 1 } ⟨1, "admin@x", "Admin"⟩).result =
      .conflictResult 2 1
        ⟨1, 1, 1, 1, none, none, 1, 1, 2, ⟨1, "R1", none, "IB", "PRIME"⟩,
          ⟨1, "L1", "IB", none⟩, ⟨1, "PLANNED", "Planned", "green", 0⟩,
          ⟨1, "admin@x", "Admin"⟩, ⟨1, "admin@x", "Admin"⟩⟩ :=
  ⟨⟨by decide, by decide⟩,
    (conflict_on_version_mismatch _ 1 ⟨1, 1, 1, 1, none, none, 1, 1, 2⟩
      { eta_in := some 5, version := 1 } ⟨1, "admin@x", "Admin"⟩ _
      (by decide) (by decide) (by decide)).1⟩

/-- C3 (counterexample): an update attempt referencing a non-existent
`ramp_id` does NOT fail with NotFound before the version check.  With stored
version 2 and supplied version 1, a request setting `ramp_id := 99` (no ramp
99 exists) returns 409 Conflict, not 404, and a conflict broadcast call is
made — contradicting the claimed NotFound-first ordering and absence of
broadcasts when the version also differs. -/
theorem bad_ref_with_stale_version_yields_conflict :
    let db : Database := ⟨[⟨1, "admin@x", "Admin"⟩], [⟨1, "R1", none, "IB", "PRIME"⟩],
      [⟨1, "L1", "IB", none⟩], [⟨1, "PLANNED", "Planned", "green", 0⟩],
      [⟨1, 1, 1, 1, none, none, 1, 1, 2⟩]⟩
    let o := update_assignment db 1 { ramp_id := some 99, version := 1 }
      ⟨1, "admin@x", "Admin"⟩
    (db.findRamp 99).isNone ∧
      o.result.statusCode = 409 ∧
      o.result.statusCode ≠ 404 ∧
      o.broadcasts ≠ [] := by decide

/-- C3 (amended): provided the supplied version matches the stored version,
an update referencing a non-existent ramp (or load, or status) id fails with
a NotFound-class 404 before any mutation: the store is unchanged and neither
an audit record nor a broadcast occurs.  (When the version differs, the
version check runs first and the call fails with Conflict instead, with a
conflict broadcast — see the counterexample.) -/
theorem notfound_before_mutation_when_version_matches (db : Database)
    (assignment_id : Nat) (a : Assignment) (u : AssignmentUpdate) (usr : User)
    (ha : db.findAssignment assignment_id = some a)
    (hv : a.version = u.version)
    (hmiss : u.ramp_id.any (fun rid => (db.findRamp rid).isNone) = true ∨
      u.load_id.any (fun lid => (db.findLoad lid).isNone) = true ∨
      u.status_id.any (fun sid => (db.findStatus sid).isNone) = true) :
    (∃ msg, (update_assignment db assignment_id u usr).result = .notFound msg) ∧
    (update_assignment db assignment_id u usr).result.statusCode = 404 ∧
    (update_assignment db assignment_id u usr).db = db ∧
    (update_assignment db assignment_id u usr).audits = [] ∧
    (update_assignment db assignment_id u usr).broadcasts = [] := by
  by_cases h1 : u.ramp_id.any (fun rid => (db.findRamp rid).isNone) = true
  · have hout : update_assignment db assignment_id u usr =
        ⟨.notFound "Ramp not found", db, [], []⟩ := by
      simp [update_assignment, ha, hv, h1]
    rw [hout]
    exact ⟨⟨_, rfl⟩, rfl, rfl, rfl, rfl⟩
  · by_cases h2 : u.load_id.any (fun lid => (db.findLoad lid).isNone) = true
    · have hout : update_assignment db assignment_id u usr =
          ⟨.notFound "Load not found", db, [], []⟩ := by
        simp [update_assignment, ha, hv, h1, h2]
      rw [hout]
      exact ⟨⟨_, rfl⟩, rfl, rfl, rfl, rfl⟩
    · have h3 : u.status_id.any (fun sid => (db.findStatus sid).isNone) = true := by
        rcases hmiss with h | h | h
        · exact absurd h h1
        · exact absurd h h2
        · exact h
      have hout : update_assignment db assignment_id u usr =
          ⟨.notFound "Status not found", db, [], []⟩ := by
        simp [update_assignment, ha, hv, h1, h2, h3]
      rw [hout]
      exact ⟨⟨_, rfl⟩, rfl, rfl, rfl, rfl⟩

/-- Witness for `notfound_before_mutation_when_version_matches`: matching
version 2, request referencing ramp 99 which does not exist. -/
theorem notfound_before_mutation_when_version_matches_witness :
    ((⟨[⟨1, "admin@x", "Admin"⟩], [⟨1, "R1", none, "IB", "PRIME"⟩],
        [⟨1, "L1", "IB", none⟩], [⟨1, "PLANNED", "Planned", "green", 0⟩],
        [⟨1, 1, 1, 1, none, none, 1, 1, 2⟩]⟩ :
        Database).findAssignment 1 = some ⟨1, 1, 1, 1, none, none, 1, 1, 2⟩) ∧
    ((update_assignment (⟨[⟨1, "admin@x", "Admin"⟩], [⟨1, "R1", none, "IB", "PRIME"⟩],
        [⟨1, "L1", "IB", none⟩], [⟨1, "PLANNED", "Planned", "green", 0⟩],
        [⟨1, 1, 1, 1, none, none, 1, 1, 2⟩]⟩ : Database) 1
        { ramp_id := some 99, version := 2 } ⟨1, "admin@x", "Admin"⟩).broadcasts = []) :=
  ⟨by decide,
    (notfound_before_mutation_when_version_matches _ 1
      ⟨1, 1, 1, 1, none, none, 1, 1, 2⟩ { ramp_id := some 99, version := 2 }
      ⟨1, "admin@x", "Admin"⟩ (by decide) (by decide)
      (Or.inl (by decide))).2.2.2.2⟩

/-- C5: an assignment's version is 1 immediately after creation (the
`VersionMixin` column default), and every successful update sets
version(after) = version(before) + 1 exactly — `increment_version()` is
called exactly once per successful update, whatever fields the request
sets — both in the returned response and in the stored row. -/
theorem version_starts_at_one_and_increments_by_one :
    (∀ (db : Database) (cin : AssignmentCreate) (usr : User)
      (r : AssignmentDetailResponse),
      (create_assignment db cin usr).result = .ok r →
      r.version = 1 ∧
      (create_assignment db cin usr).db.assignments =
        db.assignments ++ [createdRow db cin usr] ∧
      (createdRow db cin usr).version = 1) ∧
    (∀ (db : Database) (assignment_id : Nat) (a : Assignment)
      (u : AssignmentUpdate) (usr : User) (r : AssignmentDetailResponse),
      db.findAssignment assignment_id = some a →
      (update_assignment db assignment_id u usr).result = .ok r →
      r.version = a.version + 1 ∧
      (update_assignment db assignment_id u usr).db.findAssignment assignment_id =
        some (updatedRow a u usr) ∧
      (updatedRow a u usr).version = a.version + 1) := by
  constructor
  · intro db cin usr r hok
    by_cases h1 : (db.findRamp cin.ramp_id).isNone
    · have hres : (create_assignment db cin usr).result = .notFound "Ramp not found" := by
        simp [create_assignment, h1]
      rw [hres] at hok
      simp at hok
    by_cases h2 : (db.findLoad cin.load_id).isNone
    · have hres : (create_assignment db cin usr).result = .notFound "Load not found" := by
        simp [create_assignment, h1, h2]
      rw [hres] at hok
      simp at hok
    by_cases h3 : (db.findStatus cin.status_id).isNone
    · have hres : (create_assignment db cin usr).result = .notFound "Status not found" := by
        simp [create_assignment, h1, h2, h3]
      rw [hres] at hok
      simp at hok
    cases hres : Database.resolveDetail
        { db with assignments := db.assignments ++ [createdRow db cin usr] }
        (createdRow db cin usr) with
    | none =>
        have hout : (create_assignment db cin usr).result = .serverError := by
          simp [create_assignment, h1, h2, h3, hres]
        rw [hout] at hok
        simp at hok
    | some resp =>
        have hout : create_assignment db cin usr =
            ⟨.ok resp, { db with assignments := db.assignments ++ [createdRow db cin usr] },
              [⟨usr.id, "assignment", (createdRow db cin usr).id, "CREATE",
                none, some (createdRow db cin usr)⟩],
              [.assignmentUpdate (createdRow db cin usr).id "CREATE" usr.id
                usr.email resp]⟩ := by
          simp [create_assignment, h1, h2, h3, hres]
        rw [hout] at hok
        have hresp : resp = r := by simpa using hok
        subst hresp
        have hf := resolveDetail_fields _ _ _ hres
        exact ⟨hf.1, by rw [hout], rfl⟩
  · intro db assignment_id a u usr r hfa hok
    by_cases hv : a.version = u.version
    · by_cases h1 : u.ramp_id.any (fun rid => (db.findRamp rid).isNone) = true
      · have hres : (update_assignment db assignment_id u usr).result =
            .notFound "Ramp not found" := by
          simp [update_assignment, hfa, hv, h1]
        rw [hres] at hok
        simp at hok
      by_cases h2 : u.load_id.any (fun lid => (db.findLoad lid).isNone) = true
      · have hres : (update_assignment db assignment_id u usr).result =
            .notFound "Load not found" := by
          simp [update_assignment, hfa, hv, h1, h2]
        rw [hres] at hok
        simp at hok
      by_cases h3 : u.status_id.any (fun sid => (db.findStatus sid).isNone) = true
      · have hres : (update_assignment db assignment_id u usr).result =
            .notFound "Status not found" := by
          simp [update_assignment, hfa, hv, h1, h2, h3]
        rw [hres] at hok
        simp at hok
      cases hres : (db.replaceAssignment (updatedRow a u usr)).resolveDetail
          (updatedRow a u usr) with
      | none =>
          have hout : (update_assignment db assignment_id u usr).result =
              .serverError := by
            simp [update_assignment, hfa, hv, h1, h2, h3, hres]
          rw [hout] at hok
          simp at hok
      | some resp =>
          have hout : update_assignment db assignment_id u usr =
              ⟨.ok resp, db.replaceAssignment (updatedRow a u usr),
                [⟨usr.id, "assignment", a.id, "UPDATE", some a,
                  some (updatedRow a u usr)⟩],
                [.assignmentUpdate assignment_id "UPDATE" usr.id usr.email resp]⟩ := by
            simp [update_assignment, hfa, hv, h1, h2, h3, hres]
          rw [hout] at hok
          have hresp : resp = r := by simpa using hok
          subst hresp
          have hf := resolveDetail_fields _ _ _ hres
          refine ⟨?_, ?_, rfl⟩
          · rw [hf.1]
            rfl
          · rw [hout]
            exact findAssignment_replace db assignment_id a (updatedRow a u usr)
              hfa rfl
    · cases hres : db.resolveDetail a with
      | none =>
          have hout : (update_assignment db assignment_id u usr).result =
              .serverError := by
            simp [update_assignment, hfa, hv, hres]
          rw [hout] at hok
          simp at hok
      | some cd =>
          have hout : (update_assignment db assignment_id u usr).result =
              .conflictResult a.version u.version cd := by
            simp [update_assignment, hfa, hv, hres]
          rw [hout] at hok
          simp at hok

/-- Witness for `version_starts_at_one_and_increments_by_one`: a concrete
creation yielding version 1 and a concrete successful update taking the
stored version from 2 to 3. -/
theorem version_starts_at_one_and_increments_by_one_witness :
    ((create_assignment
        (⟨[⟨1, "admin@x", "Admin"⟩], [⟨1, "R1", none, "IB", "PRIME"⟩],
          [⟨1, "L1", "IB", none⟩], [⟨1, "PLANNED", "Planned", "green", 0⟩],
          []⟩ : Database) ⟨1, 1, 1, none, none⟩ ⟨1, "admin@x", "Admin"⟩).result =
      .ok ⟨1, 1, 1, 1, none, none, 1, 1, 1, ⟨1, "R1", none, "IB", "PRIME"⟩,
        ⟨1, "L1", "IB", none⟩, ⟨1, "PLANNED", "Planned", "green", 0⟩,
        ⟨1, "admin@x", "Admin"⟩, ⟨1, "admin@x", "Admin"⟩⟩ ∧
      (⟨1, 1, 1, 1, none, none, 1, 1, 1, ⟨1, "R1", none, "IB", "PRIME"⟩,
        ⟨1, "L1", "IB", none⟩, ⟨1, "PLANNED", "Planned", "green", 0⟩,
        ⟨1, "admin@x", "Admin"⟩, ⟨1, "admin@x", "Admin"⟩⟩ :
        AssignmentDetailResponse).version = 1) ∧
    ((⟨[⟨1, "admin@x", "Admin"⟩], [⟨1, "R1", none, "IB", "PRIME"⟩],
        [⟨1, "L1", "IB", none⟩],
        [⟨1, "PLANNED", "Planned", "green", 0⟩, ⟨2, "ARRIVED", "Arrived", "blue", 1⟩],
        [⟨1, 1, 1, 1, none, none, 1, 1, 2⟩]⟩ :
        Database).findAssignment 1 = some ⟨1, 1, 1, 1, none, none, 1, 1, 2⟩ ∧
      (update_assignment
        (⟨[⟨1, "admin@x", "Admin"⟩], [⟨1, "R1", none, "IB", "PRIME"⟩],
          [⟨1, "L1", "IB", none⟩],
          [⟨1, "PLANNED", "Planned", "green", 0⟩, ⟨2, "ARRIVED", "Arrived", "blue", 1⟩],
          [⟨1, 1, 1, 1, none, none, 1, 1, 2⟩]⟩ : Database) 1
        { status_id := some 2, version := 2 } ⟨1, "admin@x", "Admin"⟩).result =
      .ok ⟨1, 1, 1, 2, none, none, 1, 1, 3, ⟨1, "R1", none, "IB", "PRIME"⟩,
        ⟨1, "L1", "IB", none⟩, ⟨2, "ARRIVED", "Arrived", "blue", 1⟩,
        ⟨1, "admin@x", "Admin"⟩, ⟨1, "admin@x", "Admin"⟩⟩ ∧
      (⟨1, 1, 1, 2, none, none, 1, 1, 3, ⟨1, "R1", none, "IB", "PRIME"⟩,
        ⟨1, "L1", "IB", none⟩, ⟨2, "ARRIVED", "Arrived", "blue", 1⟩,
        ⟨1, "admin@x", "Admin"⟩, ⟨1, "admin@x", "Admin"⟩⟩ :
        AssignmentDetailResponse).version = 2 + 1) :=
  ⟨⟨by decide,
    (version_starts_at_one_and_increments_by_one.1
      (⟨[⟨1, "admin@x", "Admin"⟩], [⟨1, "R1", none, "IB", "PRIME"⟩],
        [⟨1, "L1", "IB", none⟩], [⟨1, "PLANNED", "Planned", "green", 0⟩],
        []⟩ : Database) ⟨1, 1, 1, none, none⟩
      ⟨1, "admin@x", "Admin"⟩
      ⟨1, 1, 1, 1, none, none, 1, 1, 1, ⟨1, "R1", none, "IB", "PRIME"⟩,
        ⟨1, "L1", "IB", none⟩, ⟨1, "PLANNED", "Planned", "green", 0⟩,
        ⟨1, "admin@x", "Admin"⟩, ⟨1, "admin@x", "Admin"⟩⟩ (by decide)).1⟩,
   ⟨by decide, by decide,
    (version_starts_at_one_and_increments_by_one.2
      (⟨[⟨1, "admin@x", "Admin"⟩], [⟨1, "R1", none, "IB", "PRIME"⟩],
        [⟨1, "L1", "IB", none⟩],
        [⟨1, "PLANNED", "Planned", "green", 0⟩, ⟨2, "ARRIVED", "Arrived", "blue", 1⟩],
        [⟨1, 1, 1, 1, none, none, 1, 1, 2⟩]⟩ : Database) 1
      ⟨1, 1, 1, 1, none, none, 1, 1, 2⟩ { status_id := some 2, version := 2 }
      ⟨1, "admin@x", "Admin"⟩
      ⟨1, 1, 1, 2, none, none, 1, 1, 3, ⟨1, "R1", none, "IB", "PRIME"⟩,
        ⟨1, "L1", "IB", none⟩, ⟨2, "ARRIVED", "Arrived", "blue", 1⟩,
        ⟨1, "admin@x", "Admin"⟩, ⟨1, "admin@x", "Admin"⟩⟩
      (by decide) (by decide)).1⟩⟩

/-- C2: two update attempts against the same assignment carrying the same
expectedVersion — equal to the stored version — serialized by the store's
transaction isolation (each `update_assignment` is one atomic transaction in
this model, with the version check and the increment inside the same
transaction and no intervening commit): whichever runs first succeeds and
commits version + 1; the second observes the post-commit state and receives
Conflict with currentVersion = original version + 1 and attemptedVersion =
the shared expectedVersion, together with the winner's committed snapshot,
and mutates nothing. -/
theorem concurrent_same_version_updates_one_wins (db : Database)
    (assignment_id : Nat) (a : Assignment) (u1 u2 : AssignmentUpdate)
    (usr1 usr2 : User) (r1 : AssignmentDetailResponse)
    (ha : db.findAssignment assignment_id = some a)
    (hv1 : u1.version = a.version) (hv2 : u2.version = a.version)
    (h1 : u1.ramp_id.any (fun rid => (db.findRamp rid).isNone) = false)
    (h2 : u1.load_id.any (fun lid => (db.findLoad lid).isNone) = false)
    (h3 : u1.status_id.any (fun sid => (db.findStatus sid).isNone) = false)
    (hres : (db.replaceAssignment (updatedRow a u1 usr1)).resolveDetail
      (updatedRow a u1 usr1) = some r1) :
    (update_assignment db assignment_id u1 usr1).result = .ok r1 ∧
    r1.version = a.version + 1 ∧
    (update_assignment (update_assignment db assignment_id u1 usr1).db
        assignment_id u2 usr2).result =
      .conflictResult (a.version + 1) u2.version r1 ∧
    (update_assignment (update_assignment db assignment_id u1 usr1).db
        assignment_id u2 usr2).db =
      (update_assignment db assignment_id u1 usr1).db := by
  have hv1' : a.version = u1.version := hv1.symm
  have hout1 : update_assignment db assignment_id u1 usr1 =
      ⟨.ok r1, db.replaceAssignment (updatedRow a u1 usr1),
        [⟨usr1.id, "assignment", a.id, "UPDATE", some a,
          some (updatedRow a u1 usr1)⟩],
        [.assignmentUpdate assignment_id "UPDATE" usr1.id usr1.email r1]⟩ := by
    simp [update_assignment, ha, hv1', h1, h2, h3, hres]
  have hfind2 : (db.replaceAssignment (updatedRow a u1 usr1)).findAssignment
      assignment_id = some (updatedRow a u1 usr1) :=
    findAssignment_replace db assignment_id a (updatedRow a u1 usr1) ha rfl
  have hup_ver : (updatedRow a u1 usr1).version = a.version + 1 := rfl
  have hv2' : (updatedRow a u1 usr1).version ≠ u2.version := by
    rw [hup_ver, hv2]
    omega
  have hout2 : update_assignment (db.replaceAssignment (updatedRow a u1 usr1))
      assignment_id u2 usr2 =
      ⟨.conflictResult (updatedRow a u1 usr1).version u2.version r1,
        db.replaceAssignment (updatedRow a u1 usr1), [],
        [.conflictNotice assignment_id (updatedRow a u1 usr1).version
          u2.version r1]⟩ := by
    have hres2 : (db.replaceAssignment (updatedRow a u1 usr1)).resolveDetail
        (updatedRow a u1 usr1) = some r1 := hres
    simp [update_assignment, hfind2, hv2', hres2]
  have hr1v : r1.version = a.version + 1 := by
    have hf := resolveDetail_fields _ _ _ hres
    rw [hf.1, hup_ver]
  refine ⟨by rw [hout1], hr1v, ?_, ?_⟩
  · rw [hout1]
    show (update_assignment (db.replaceAssignment (updatedRow a u1 usr1))
      assignment_id u2 usr2).result = _
    rw [hout2, hup_ver]
  · rw [hout1]
    show (update_assignment (db.replaceAssignment (updatedRow a u1 usr1))
      assignment_id u2 usr2).db = _
    rw [hout2]

/-- Witness for `concurrent_same_version_updates_one_wins`: both writers
supply expectedVersion 1 against a fresh assignment; the first commits
version 2, the second gets Conflict (2, 1). -/
theorem concurrent_same_version_updates_one_wins_witness :
    ((⟨[⟨1, "admin@x", "Admin"⟩, ⟨2, "op@x", "Op"⟩], [⟨1, "R1", none, "IB", "PRIME"⟩],
        [⟨1, "L1", "IB", none⟩],
        [⟨1, "PLANNED", "Planned", "green", 0⟩, ⟨2, "ARRIVED", "Arrived", "blue", 1⟩],
        [⟨1, 1, 1, 1, none, none, 1, 1, 1⟩]⟩ :
        Database).findAssignment 1 = some ⟨1, 1, 1, 1, none, none, 1, 1, 1⟩) ∧
    ((update_assignment (⟨[⟨1, "admin@x", "Admin"⟩, ⟨2, "op@x", "Op"⟩],
        [⟨1, "R1", none, "IB", "PRIME"⟩], [⟨1, "L1", "IB", none⟩],
        [⟨1, "PLANNED", "Planned", "green", 0⟩, ⟨2, "ARRIVED", "Arrived", "blue", 1⟩],
        [⟨1, 1, 1, 1, none, none, 1, 1, 1⟩]⟩ : Database) 1
        { status_id := some 2, version := 1 } ⟨1, "admin@x", "Admin"⟩).result =
      .ok ⟨1, 1, 1, 2, none, none, 1, 1, 2, ⟨1, "R1", none, "IB", "PRIME"⟩,
        ⟨1, "L1", "IB", none⟩, ⟨2, "ARRIVED", "Arrived", "blue", 1⟩,
        ⟨1, "admin@x", "Admin"⟩, ⟨1, "admin@x", "Admin"⟩⟩ ∧
      (update_assignment (update_assignment (⟨[⟨1, "admin@x", "Admin"⟩, ⟨2, "op@x", "Op"⟩],
          [⟨1, "R1", none, "IB", "PRIME"⟩], [⟨1, "L1", "IB", none⟩],
          [⟨1, "PLANNED", "Planned", "green", 0⟩, ⟨2, "ARRIVED", "Arrived", "blue", 1⟩],
          [⟨1, 1, 1, 1, none, none, 1, 1, 1⟩]⟩ : Database) 1
          { status_id := some 2, version := 1 } ⟨1, "admin@x", "Admin"⟩).db 1
          { status_id := some 1, version := 1 } ⟨2, "op@x", "Op"⟩).result =
      .conflictResult (1 + 1) 1
        ⟨1, 1, 1, 2, none, none, 1, 1, 2, ⟨1, "R1", none, "IB", "PRIME"⟩,
          ⟨1, "L1", "IB", none⟩, ⟨2, "ARRIVED", "Arrived", "blue", 1⟩,
          ⟨1, "admin@x", "Admin"⟩, ⟨1, "admin@x", "Admin"⟩⟩) :=
  ⟨by decide,
    (concurrent_same_version_updates_one_wins
      (⟨[⟨1, "admin@x", "Admin"⟩, ⟨2, "op@x", "Op"⟩], [⟨1, "R1", none, "IB", "PRIME"⟩],
        [⟨1, "L1", "IB", none⟩],
        [⟨1, "PLANNED", "Planned", "green", 0⟩, ⟨2, "ARRIVED", "Arrived", "blue", 1⟩],
        [⟨1, 1, 1, 1, none, none, 1, 1, 1⟩]⟩ : Database) 1
      ⟨1, 1, 1, 1, none, none, 1, 1, 1⟩
      { status_id := some 2, version := 1 } { status_id := some 1, version := 1 }
      ⟨1, "admin@x", "Admin"⟩ ⟨2, "op@x", "Op"⟩
      ⟨1, 1, 1, 2, none, none, 1, 1, 2, ⟨1, "R1", none, "IB", "PRIME"⟩,
        ⟨1, "L1", "IB", none⟩, ⟨2, "ARRIVED", "Arrived", "blue", 1⟩,
        ⟨1, "admin@x", "Admin"⟩, ⟨1, "admin@x", "Admin"⟩⟩
      (by decide) (by decide) (by decide) (by decide) (by decide) (by decide)
      (by decide)).imp (fun h => h) (fun h => h.2.1)⟩

end RampForge
